import Mathlib

/-!
Verification of the cookie-scanner service (`apps/cookie-scanner/main.py`).

The development shallowly embeds the parts of the service the specification
talks about: the pure classifier `categorize_cookie`, the mapping from raw
browser cookies to persisted records, the background worker `scan_worker`
(modelled as a sequence of database states, where the terminal
status-update + cookie-batch write is a single atomic step, mirroring the
`conn.transaction()` block in the source), and the `GET /scans` listing
query (`WHERE tenant_id = $1 ORDER BY created_at DESC LIMIT 50 OFFSET 0`).

Machine details are modelled as follows: Python strings are Lean `String`s;
`str.lower()` is `pyLower` (ASCII case folding, which is exact for the
keyword alphabet the classifier uses); the Python substring test `s in n` is
`containsSub n s`; Python truthiness of an `Optional[str]` is `pyTruthy`;
timestamps are `Int` (only their ordering matters); `datetime.fromtimestamp`
is modelled as the identity on the timestamp, which preserves presence and
order, the only facts used.
-/

namespace CookieScanner

/-- Python's `name.lower()`: fold each character to lower case
(`Char.toLower` is ASCII case folding, exact on cookie-name alphabets). -/
def pyLower (s : String) : String :=
  ⟨s.data.map Char.toLower⟩

/-- Decides whether `needle` is a contiguous prefix of `hay` (character lists). -/
def listPrefixOf : List Char → List Char → Bool
  | [], _ => true
  | _ :: _, [] => false
  | a :: as, b :: bs => a == b && listPrefixOf as bs

/-- Decides whether `needle` occurs contiguously inside `hay` (character lists). -/
def listSub (needle : List Char) : List Char → Bool
  | [] => listPrefixOf needle []
  | b :: bs => listPrefixOf needle (b :: bs) || listSub needle bs

/-- Python's `s in n` substring test: does `s` occur contiguously in `n`? -/
def containsSub (n s : String) : Bool :=
  listSub s.data n.data

/-- First keyword group of `categorize_cookie` (source line 58). -/
def analyticsKeywords : List String :=
  ["_ga", "_gid", "_gat", "utma", "utmb", "utmc", "utmz", "_hjid", "_hjsession", "_hjincluded"]

/-- Second keyword group of `categorize_cookie` (source line 60). -/
def marketingKeywords : List String :=
  ["fbp", "_fbc", "ide", "test_cookie", "muid", "anonchk", "_ttp", "fr_"]

/-- Third keyword group of `categorize_cookie` (source line 62). -/
def functionalKeywords : List String :=
  ["lang", "locale", "language", "seen_cookie", "cookie_notice", "cookie_consent", "gdpr"]

/-- Fourth keyword group of `categorize_cookie` (source line 64). -/
def necessaryKeywords : List String :=
  ["session", "csrf", "xsrf", "jsessionid", "phpsessid", "asp.net_", "cf_clearance", "__cfduid", "token", "auth"]

/-- `categorize_cookie(name)` from the source: lowercase the name, then test the
four keyword groups in order, returning on the first group with a substring
match, defaulting to `"Unknown"`. -/
def categorize_cookie (name : String) : String :=
  let n := pyLower name
  if analyticsKeywords.any (fun s => containsSub n s) then "Analytics"
  else if marketingKeywords.any (fun s => containsSub n s) then "Marketing"
  else if functionalKeywords.any (fun s => containsSub n s) then "Functional"
  else if necessaryKeywords.any (fun s => containsSub n s) then "Necessary"
  else "Unknown"

/-- A raw cookie as returned by `context.cookies()`: every attribute may be
absent, matching the `c.get(...)` accesses in the source. -/
structure RawCookie where
  name : Option String
  domain : Option String
  path : Option String
  value : Option String
  expires : Option Int
  secure : Option Bool
  httpOnly : Option Bool
  sameSite : Option String
deriving Repr, DecidableEq

/-- A row of `scanned_cookies` as built by the mapping loop in `scan_worker`
(source lines 129-148). The generated `uuid4` id is omitted: no claim
depends on it. `expiration` holds the expiry timestamp when present
(`datetime.fromtimestamp` modelled as the identity on the timestamp). -/
structure CookieRecord where
  scan_id : String
  name : String
  domain : String
  path : String
  value : String
  expiration : Option Int
  secure : Bool
  http_only : Bool
  same_site : String
  source : String
  category : String
  description : String
deriving Repr, DecidableEq

/-- The body of the mapping loop in `scan_worker`: builds one `scanned_cookies`
row from one raw cookie, with the source's defaults
(`c.get('name', '')`, `c.get('path', '/')`, `bool(c.get('secure'))`,
`str(c.get('sameSite', ''))`, `exp = fromtimestamp(expires) if expires > 0`,
fixed `source` and `description`). -/
def mapRawCookie (sid : String) (c : RawCookie) : CookieRecord :=
  { scan_id := sid
    name := c.name.getD ""
    domain := c.domain.getD ""
    path := c.path.getD "/"
    value := c.value.getD ""
    expiration := if 0 < c.expires.getD (-1) then some (c.expires.getD (-1)) else none
    secure := c.secure.getD false
    http_only := c.httpOnly.getD false
    same_site := c.sameSite.getD ""
    source := "headless_browser"
    category := categorize_cookie (c.name.getD "")
    description := "Automatically detected via PII Discovery" }

/-- Scan status values of the `cookie_scans` table. -/
inductive ScanStatus where
  | pending
  | running
  | completed
  | failed
deriving Repr, DecidableEq

/-- A row of the `cookie_scans` table. Timestamps are `Int`. -/
structure ScanRow where
  id : String
  tenant_id : String
  url : String
  status : ScanStatus
  error : Option String
  created_at : Int
  started_at : Option Int
  completed_at : Option Int
  updated_at : Int
deriving Repr, DecidableEq

/-- The persisted state the worker and the endpoints touch: the
`cookie_scans` and `scanned_cookies` tables. -/
structure DB where
  scans : List ScanRow
  cookies : List CookieRecord
deriving Repr, DecidableEq

/-- Outcome of the capture phase of `scan_worker` (the `async_playwright`
block). `engineFatal msg` is the outer `except Exception as outer_e` path:
the browser launch/session failed before any cookie was extracted, so
`extracted_cookies` is still empty and `scan_error = str(outer_e) = msg`.
`session navError raw` is the path where the session ran to cookie
extraction: `navError` is `str(e)` of the inner navigation exception if one
was raised (`None` otherwise), and `raw` is what `context.cookies()`
returned. -/
inductive CaptureOutcome where
  | engineFatal (msg : String)
  | session (navError : Option String) (raw : List RawCookie)
deriving Repr, DecidableEq

/-- The `scan_error` variable at the end of the capture phase. -/
def captureError : CaptureOutcome → Option String
  | .engineFatal m => some m
  | .session e _ => e

/-- The `extracted_cookies` list at the end of the capture phase: empty on an
engine-fatal failure, otherwise the mapping loop applied to the raw jar. -/
def capturedCookies (sid : String) : CaptureOutcome → List CookieRecord
  | .engineFatal _ => []
  | .session _ raw => raw.map (mapRawCookie sid)

/-- Python truthiness of an `Optional[str]`: `None` and `''` are falsy. -/
def pyTruthy : Option String → Bool
  | none => false
  | some s => !s.isEmpty

/-- The first UPDATE of `scan_worker` (source lines 74-78): mark the scan
`running`, stamping `started_at` and `updated_at`. -/
def setRunning (sid : String) (t : Int) (db : DB) : DB :=
  { db with
    scans := db.scans.map fun r =>
      if r.id == sid then
        { r with status := .running, started_at := some t, updated_at := t }
      else r }

/-- The `final_status` computation (source line 158):
`'failed' if scan_error else 'completed'` — Python truthiness. -/
def finalStatus (err : Option String) : ScanStatus :=
  if pyTruthy err then .failed else .completed

/-- The terminal write of `scan_worker` (source lines 162-184): inside one
`conn.transaction()`, update status/error/`completed_at`/`updated_at` and
bulk-insert the full cookie batch. Modelled as a single step on `DB`,
mirroring the transactional all-or-nothing contract of the source. -/
def terminalWrite (sid : String) (err : Option String)
    (batch : List CookieRecord) (t : Int) (db : DB) : DB :=
  { scans := db.scans.map fun r =>
      if r.id == sid then
        { r with status := finalStatus err, error := err,
                 completed_at := some t, updated_at := t }
      else r
    cookies := db.cookies ++ batch }

/-- The sequence of database states a reader can observe while `scan_worker`
runs for scan `sid` with capture outcome `o`: the initial state, the state
after the `running` update, and the state after the atomic terminal write.
`t0`/`t1` are the two `datetime.now` stamps. -/
def scanWorkerTrace (sid : String) (o : CaptureOutcome) (t0 t1 : Int) (db : DB) : List DB :=
  let db1 := setRunning sid t0 db
  let db2 := terminalWrite sid (captureError o) (capturedCookies sid o) t1 db1
  [db, db1, db2]

/-- The final database state after `scan_worker` returns. -/
def scanWorkerFinal (sid : String) (o : CaptureOutcome) (t0 t1 : Int) (db : DB) : DB :=
  terminalWrite sid (captureError o) (capturedCookies sid o) t1 (setRunning sid t0 db)

/-- `SELECT * FROM cookie_scans WHERE id = $1` (first match). -/
def findScan (db : DB) (sid : String) : Option ScanRow :=
  db.scans.find? fun r => r.id == sid

/-- The rows of `scanned_cookies` belonging to scan `sid`. -/
def cookiesOf (db : DB) (sid : String) : List CookieRecord :=
  db.cookies.filter fun c => c.scan_id == sid

/-- `ORDER BY created_at DESC`: a row sorts before another when its
`created_at` is at least the other's. -/
def newerFirst (a b : ScanRow) : Prop :=
  b.created_at ≤ a.created_at

instance : DecidableRel newerFirst := fun a b =>
  inferInstanceAs (Decidable (b.created_at ≤ a.created_at))

instance : IsTotal ScanRow newerFirst :=
  ⟨fun a b => le_total b.created_at a.created_at⟩

instance : IsTrans ScanRow newerFirst :=
  ⟨fun _ _ _ h1 h2 => le_trans h2 h1⟩

/-- The `GET /scans` query (source lines 216-221):
`SELECT * FROM cookie_scans WHERE tenant_id = $1 ORDER BY created_at DESC
LIMIT 50 OFFSET 0`. The limit and offset are hard-coded; the function takes
no pagination input, exactly like the endpoint. -/
def list_scans (db : DB) (tid : String) : List ScanRow :=
  (((db.scans.filter fun r => r.tenant_id == tid).insertionSort newerFirst).take 50)

/-! Concrete sample data used to instantiate the theorems below. -/

/-- A raw cookie with a positive expiry and no `path` attribute. -/
def rawCookieEx : RawCookie :=
  { name := some "_ga", domain := some "example.com", path := none,
    value := some "GA1.1", expires := some 100, secure := some true,
    httpOnly := none, sameSite := some "Lax" }

/-- A raw cookie with every attribute absent. -/
def rawCookieNone : RawCookie :=
  { name := none, domain := none, path := none, value := none,
    expires := none, secure := none, httpOnly := none, sameSite := none }

/-- A freshly created pending scan, as inserted by `POST /scans`. -/
def scanRowEx : ScanRow :=
  { id := "s1", tenant_id := "tA", url := "https://example.com",
    status := .pending, error := none, created_at := 10,
    started_at := none, completed_at := none, updated_at := 10 }

/-- A second pending scan with its own id. -/
def scanRowEx2 : ScanRow :=
  { scanRowEx with id := "s2" }

/-- A database holding exactly the pending scan `scanRowEx`. -/
def dbEx : DB :=
  { scans := [scanRowEx], cookies := [] }

/-- A database holding exactly the pending scan `scanRowEx2`. -/
def dbEx2 : DB :=
  { scans := [scanRowEx2], cookies := [] }

/-- A scan owned by tenant `tB`, newer than `scanRowEx`. -/
def scanRowB : ScanRow :=
  { scanRowEx with id := "sB", tenant_id := "tB", created_at := 42, updated_at := 42 }

/-- A database holding one scan of tenant `tA` and one of tenant `tB`. -/
def dbAB : DB :=
  { scans := [scanRowB, scanRowEx], cookies := [] }

/-- The `k`-th of a family of scans owned by tenant `tA`, created at time `k`. -/
def mkScanRow (k : Nat) : ScanRow :=
  { id := toString k, tenant_id := "tA", url := "https://example.com",
    status := .pending, error := none, created_at := (k : Int),
    started_at := none, completed_at := none, updated_at := (k : Int) }

/-- A database holding 51 scans of tenant `tA`, created at times 0..50. -/
def db51 : DB :=
  { scans := (List.range 51).map mkScanRow, cookies := [] }

/-! ## Classifier claims -/

/-- C6: `categorize_cookie` is case-insensitive — any two names with the same
lower-casing (i.e. case-variants of one another) get the same category. -/
theorem categorize_case_insensitive (s t : String) (h : pyLower s = pyLower t) :
    categorize_cookie s = categorize_cookie t := by
  unfold categorize_cookie
  rw [h]

/-- C6 witness: `"_GA_ID"` and `"_ga_id"` are case-variants and get the same
category. -/
theorem categorize_case_insensitive_witness :
    pyLower "_GA_ID" = pyLower "_ga_id" ∧
      categorize_cookie "_GA_ID" = categorize_cookie "_ga_id" :=
  ⟨by decide, categorize_case_insensitive "_GA_ID" "_ga_id" (by decide)⟩

/-- C4: `categorize_cookie` tests the four keyword groups in the fixed order
Analytics > Marketing > Functional > Necessary on the lower-cased name,
returns the category of the first group with a substring match, returns
`"Unknown"` when no group matches, and a name matching both an Analytics and
a Necessary fragment is categorized `"Analytics"`. -/
theorem categorize_priority (name : String) :
    (analyticsKeywords.any (fun s => containsSub (pyLower name) s) = true →
        categorize_cookie name = "Analytics") ∧
    (analyticsKeywords.any (fun s => containsSub (pyLower name) s) = false →
      marketingKeywords.any (fun s => containsSub (pyLower name) s) = true →
        categorize_cookie name = "Marketing") ∧
    (analyticsKeywords.any (fun s => containsSub (pyLower name) s) = false →
      marketingKeywords.any (fun s => containsSub (pyLower name) s) = false →
      functionalKeywords.any (fun s => containsSub (pyLower name) s) = true →
        categorize_cookie name = "Functional") ∧
    (analyticsKeywords.any (fun s => containsSub (pyLower name) s) = false →
      marketingKeywords.any (fun s => containsSub (pyLower name) s) = false →
      functionalKeywords.any (fun s => containsSub (pyLower name) s) = false →
      necessaryKeywords.any (fun s => containsSub (pyLower name) s) = true →
        categorize_cookie name = "Necessary") ∧
    (analyticsKeywords.any (fun s => containsSub (pyLower name) s) = false →
      marketingKeywords.any (fun s => containsSub (pyLower name) s) = false →
      functionalKeywords.any (fun s => containsSub (pyLower name) s) = false →
      necessaryKeywords.any (fun s => containsSub (pyLower name) s) = false →
        categorize_cookie name = "Unknown") ∧
    (analyticsKeywords.any (fun s => containsSub (pyLower name) s) = true →
      necessaryKeywords.any (fun s => containsSub (pyLower name) s) = true →
        categorize_cookie name = "Analytics") := by
  refine ⟨?_, ?_, ?_, ?_, ?_, ?_⟩ <;>
    · intros
      simp only [categorize_cookie]
      simp [*]

/-- C4 witness: `"_GA_session"` matches both an Analytics fragment (`_ga`)
and a Necessary fragment (`session`) and resolves to `"Analytics"`, and
`"foo"` matches no group and resolves to `"Unknown"`. -/
theorem categorize_priority_witness :
    categorize_cookie "_GA_session" = "Analytics" ∧
      categorize_cookie "foo" = "Unknown" :=
  ⟨(categorize_priority "_GA_session").2.2.2.2.2 (by decide) (by decide),
   (categorize_priority "foo").2.2.2.2.1 (by decide) (by decide) (by decide) (by decide)⟩

/-! ## Cookie-mapping claims -/

/-- C7: the persisted record of a raw cookie has a non-null expiration
exactly for a strictly positive reported expiry (absent or non-positive
expiry gives a session cookie with null expiration), `path` defaults to
`"/"` when absent, and `source` is always `"headless_browser"`. -/
theorem cookie_expiry_mapping (sid : String) (c : RawCookie) :
    (∀ e, c.expires = some e → 0 < e → (mapRawCookie sid c).expiration = some e) ∧
    (∀ e, c.expires = some e → e ≤ 0 → (mapRawCookie sid c).expiration = none) ∧
    (c.expires = none → (mapRawCookie sid c).expiration = none) ∧
    (c.path = none → (mapRawCookie sid c).path = "/") ∧
    (mapRawCookie sid c).source = "headless_browser" := by
  refine ⟨?_, ?_, ?_, ?_, rfl⟩
  · intro e he hpos
    simp [mapRawCookie, he, hpos]
  · intro e he hle
    simp [mapRawCookie, he, not_lt.mpr hle]
  · intro he
    simp [mapRawCookie, he]
  · intro hp
    simp [mapRawCookie, hp]

/-- C7 witness: a raw cookie with expiry 100 and no `path` maps to a record
with expiration 100, path `"/"` and source `"headless_browser"`. -/
theorem cookie_expiry_mapping_witness :
    (mapRawCookie "s1" rawCookieEx).expiration = some 100 ∧
      (mapRawCookie "s1" rawCookieEx).path = "/" ∧
      (mapRawCookie "s1" rawCookieEx).source = "headless_browser" :=
  ⟨(cookie_expiry_mapping "s1" rawCookieEx).1 100 (by decide) (by decide),
   (cookie_expiry_mapping "s1" rawCookieEx).2.2.2.1 (by decide),
   (cookie_expiry_mapping "s1" rawCookieEx).2.2.2.2⟩

/-- C9: every attribute absent from the raw cookie gets a fixed default in
the persisted record — empty string for `name`/`domain`/`value`/`same_site`,
`false` for `secure`/`http_only` — and `description` is always the fixed
annotation string. -/
theorem cookie_defaults (sid : String) (c : RawCookie) :
    (c.name = none → (mapRawCookie sid c).name = "") ∧
    (c.domain = none → (mapRawCookie sid c).domain = "") ∧
    (c.value = none → (mapRawCookie sid c).value = "") ∧
    (c.secure = none → (mapRawCookie sid c).secure = false) ∧
    (c.httpOnly = none → (mapRawCookie sid c).http_only = false) ∧
    (c.sameSite = none → (mapRawCookie sid c).same_site = "") ∧
    (mapRawCookie sid c).description = "Automatically detected via PII Discovery" := by
  refine ⟨?_, ?_, ?_, ?_, ?_, ?_, rfl⟩ <;>
    · intro h
      simp [mapRawCookie, h]

/-- C9 witness: the all-absent raw cookie maps to a record with empty-string
and `false` defaults and the fixed description. -/
theorem cookie_defaults_witness :
    (mapRawCookie "s1" rawCookieNone).name = "" ∧
      (mapRawCookie "s1" rawCookieNone).secure = false ∧
      (mapRawCookie "s1" rawCookieNone).http_only = false ∧
      (mapRawCookie "s1" rawCookieNone).same_site = "" ∧
      (mapRawCookie "s1" rawCookieNone).description =
        "Automatically detected via PII Discovery" :=
  ⟨(cookie_defaults "s1" rawCookieNone).1 (by decide),
   (cookie_defaults "s1" rawCookieNone).2.2.2.1 (by decide),
   (cookie_defaults "s1" rawCookieNone).2.2.2.2.1 (by decide),
   (cookie_defaults "s1" rawCookieNone).2.2.2.2.2.1 (by decide),
   (cookie_defaults "s1" rawCookieNone).2.2.2.2.2.2⟩

/-! ## Worker lemmas -/

theorem find?_map_update (l : List ScanRow) (sid : String) (f : ScanRow → ScanRow)
    (hf : ∀ r, (f r).id = r.id) :
    (l.map fun r => if r.id == sid then f r else r).find? (fun r => r.id == sid)
      = (l.find? fun r => r.id == sid).map f := by
  have hpg : ((fun r : ScanRow => r.id == sid) ∘ fun r => if r.id == sid then f r else r)
      = fun r : ScanRow => r.id == sid := by
    funext r
    by_cases h : (r.id == sid) = true
    · simp [Function.comp, h, hf]
    · simp [Function.comp, h]
  rw [List.find?_map, hpg]
  cases hfind : l.find? fun r => r.id == sid with
  | none => rfl
  | some r =>
    have hr := List.find?_some hfind
    simp only [] at hr
    simp only [beq_iff_eq] at hr
    simp [hr]

theorem findScan_setRunning (sid : String) (t : Int) (db : DB) :
    findScan (setRunning sid t db) sid
      = (findScan db sid).map fun r =>
          { r with status := .running, started_at := some t, updated_at := t } := by
  unfold findScan setRunning
  exact find?_map_update _ _ _ fun r => rfl

theorem findScan_terminalWrite (sid : String) (err : Option String)
    (batch : List CookieRecord) (t : Int) (db : DB) :
    findScan (terminalWrite sid err batch t db) sid
      = (findScan db sid).map fun r =>
          { r with status := finalStatus err, error := err,
                   completed_at := some t, updated_at := t } := by
  unfold findScan terminalWrite
  exact find?_map_update _ _ _ fun r => rfl

theorem cookiesOf_setRunning (sid sid' : String) (t : Int) (db : DB) :
    cookiesOf (setRunning sid t db) sid' = cookiesOf db sid' := rfl

theorem cookiesOf_terminalWrite (sid : String) (err : Option String)
    (batch : List CookieRecord) (t : Int) (db : DB) :
    cookiesOf (terminalWrite sid err batch t db) sid
      = cookiesOf db sid ++ batch.filter (fun c => c.scan_id == sid) := by
  unfold cookiesOf terminalWrite
  simp

theorem capturedCookies_filter (sid : String) (o : CaptureOutcome) :
    (capturedCookies sid o).filter (fun c => c.scan_id == sid)
      = capturedCookies sid o := by
  cases o with
  | engineFatal m => rfl
  | session e raw =>
    rw [List.filter_eq_self]
    intro c hc
    obtain ⟨rc, _, rfl⟩ := List.mem_map.mp hc
    simp [mapRawCookie]

theorem finalStatus_terminal (err : Option String) :
    finalStatus err = .completed ∨ finalStatus err = .failed := by
  unfold finalStatus
  by_cases h : pyTruthy err = true
  · right; simp [h]
  · left; simp [h]

/-! ## Worker claims -/

/-- C1: the terminal write of `scan_worker` is atomic — in every database
state observable while the worker runs (modelling the source's single
`conn.transaction()` block as one step), the scan is in a terminal status
exactly when its full cookie batch is present, and a non-terminal scan has
no cookies; no state shows a `completed`/`failed` scan with a partial batch. -/
theorem scan_worker_atomic (sid : String) (o : CaptureOutcome) (t0 t1 : Int)
    (db : DB) (r0 : ScanRow) (h0 : findScan db sid = some r0)
    (hp : r0.status = .pending) (hc : cookiesOf db sid = []) :
    ∀ s ∈ scanWorkerTrace sid o t0 t1 db, ∃ r, findScan s sid = some r ∧
      ((r.status = .completed ∨ r.status = .failed) →
        cookiesOf s sid = capturedCookies sid o) ∧
      (¬(r.status = .completed ∨ r.status = .failed) →
        cookiesOf s sid = []) := by
  intro s hs
  simp only [scanWorkerTrace, List.mem_cons, List.not_mem_nil, or_false] at hs
  rcases hs with rfl | rfl | rfl
  · refine ⟨r0, h0, ?_, fun _ => hc⟩
    intro hterm
    rcases hterm with h | h <;> rw [hp] at h <;> exact absurd h (by simp)
  · refine ⟨_, by rw [findScan_setRunning, h0]; rfl, ?_, ?_⟩
    · intro hterm
      rcases hterm with h | h <;> exact absurd h (by simp)
    · intro _
      rw [cookiesOf_setRunning]
      exact hc
  · refine ⟨_, by rw [findScan_terminalWrite, findScan_setRunning, h0]; rfl, ?_, ?_⟩
    · intro _
      rw [cookiesOf_terminalWrite, cookiesOf_setRunning, hc,
        capturedCookies_filter, List.nil_append]
    · intro hterm
      exact absurd (finalStatus_terminal (captureError o)) hterm

/-- C1 witness: the atomicity statement instantiated on a concrete pending
scan, a concrete navigation-error outcome with one captured cookie, and the
concrete observable state after the terminal write. -/
theorem scan_worker_atomic_witness :
    ∃ r, findScan
        (scanWorkerFinal "s1" (.session (some "timeout") [rawCookieEx]) 11 12 dbEx)
        "s1" = some r ∧
      ((r.status = .completed ∨ r.status = .failed) →
        cookiesOf (scanWorkerFinal "s1" (.session (some "timeout") [rawCookieEx]) 11 12 dbEx)
          "s1" = capturedCookies "s1" (.session (some "timeout") [rawCookieEx])) ∧
      (¬(r.status = .completed ∨ r.status = .failed) →
        cookiesOf (scanWorkerFinal "s1" (.session (some "timeout") [rawCookieEx]) 11 12 dbEx)
          "s1" = []) :=
  scan_worker_atomic "s1" (.session (some "timeout") [rawCookieEx]) 11 12 dbEx
    scanRowEx (by decide) (by decide) (by decide)
    (scanWorkerFinal "s1" (.session (some "timeout") [rawCookieEx]) 11 12 dbEx)
    (by decide)

/-- C2 counterexample: a captured exception whose text is the empty string
drives the terminal write to status `completed` with `error = some ""` —
the error field is non-null while the status is not `failed`, because
`'failed' if scan_error else 'completed'` treats the empty string as falsy. -/
theorem error_iff_failed_cex :
    (findScan (scanWorkerFinal "s1" (.engineFatal "") 11 12 dbEx) "s1").map
        (fun r => (r.status, r.error, r.completed_at))
      = some (ScanStatus.completed, some "", some 12) := by decide

/-- C2 (amended): after the terminal write the scan's status is exactly one
of `completed`/`failed` and `completed_at` is non-null; `error` is non-null
iff the status is `failed` **provided every captured exception has non-empty
text** — an exception with empty text instead yields status `completed`
with the empty string (non-null) stored in `error`. -/
theorem terminal_write_invariant (sid : String) (o : CaptureOutcome) (t0 t1 : Int)
    (db : DB) (r0 : ScanRow) (h0 : findScan db sid = some r0)
    (hmsg : ∀ m, captureError o = some m → m ≠ "") :
    ∃ r, findScan (scanWorkerFinal sid o t0 t1 db) sid = some r ∧
      (r.status = .completed ∨ r.status = .failed) ∧
      ¬(r.status = .completed ∧ r.status = .failed) ∧
      r.completed_at = some t1 ∧
      (r.error ≠ none ↔ r.status = .failed) := by
  refine ⟨_, by rw [scanWorkerFinal, findScan_terminalWrite, findScan_setRunning, h0]; rfl,
    finalStatus_terminal _, ?_, rfl, ?_⟩
  · rintro ⟨h1, h2⟩
    exact ScanStatus.noConfusion ((h1 : finalStatus (captureError o) = .completed).symm.trans h2)
  · show captureError o ≠ none ↔ finalStatus (captureError o) = .failed
    cases ho : captureError o with
    | none => simp [finalStatus, pyTruthy]
    | some m =>
      have hm : m.isEmpty = false := by
        have := hmsg m ho
        rcases h : m.isEmpty with _ | _
        · rfl
        · exact absurd ((String.isEmpty_iff m).mp h) this
      simp [finalStatus, pyTruthy, hm]

/-- C2 witness: the amended invariant instantiated on a concrete navigation
failure with non-empty text. -/
theorem terminal_write_invariant_witness :
    ∃ r, findScan (scanWorkerFinal "s1" (.session (some "timeout") []) 11 12 dbEx) "s1"
        = some r ∧
      (r.status = .completed ∨ r.status = .failed) ∧
      ¬(r.status = .completed ∧ r.status = .failed) ∧
      r.completed_at = some 12 ∧
      (r.error ≠ none ↔ r.status = .failed) :=
  terminal_write_invariant "s1" (.session (some "timeout") []) 11 12 dbEx scanRowEx
    (by decide) (fun m hm => by
      simp only [captureError, Option.some_inj] at hm
      rw [← hm]
      decide)

/-- C3: when navigation raises an error with text `e`, the worker still maps
and persists every cookie captured before the failure: the final state
records `error = some e` and the full mapped batch for the scan. -/
theorem nav_error_keeps_cookies (sid e : String) (raw : List RawCookie) (t0 t1 : Int)
    (db : DB) (r0 : ScanRow) (h0 : findScan db sid = some r0)
    (hc : cookiesOf db sid = []) :
    ∃ r, findScan (scanWorkerFinal sid (.session (some e) raw) t0 t1 db) sid = some r ∧
      r.error = some e ∧
      cookiesOf (scanWorkerFinal sid (.session (some e) raw) t0 t1 db) sid
        = raw.map (mapRawCookie sid) := by
  refine ⟨_, by rw [scanWorkerFinal, findScan_terminalWrite, findScan_setRunning, h0]; rfl,
    rfl, ?_⟩
  rw [scanWorkerFinal, cookiesOf_terminalWrite, cookiesOf_setRunning, hc,
    capturedCookies_filter, List.nil_append]
  rfl

/-- C3 witness: a concrete timed-out navigation with one captured cookie
still persists that cookie's record. -/
theorem nav_error_keeps_cookies_witness :
    ∃ r, findScan (scanWorkerFinal "s1" (.session (some "timeout") [rawCookieEx]) 11 12 dbEx)
        "s1" = some r ∧
      r.error = some "timeout" ∧
      cookiesOf (scanWorkerFinal "s1" (.session (some "timeout") [rawCookieEx]) 11 12 dbEx)
        "s1" = [rawCookieEx].map (mapRawCookie "s1") :=
  nav_error_keeps_cookies "s1" "timeout" [rawCookieEx] 11 12 dbEx scanRowEx
    (by decide) (by decide)

/-- C5 counterexample: an engine-fatal exception whose text is the empty
string is caught and stored, but the scan ends `completed`, not `failed` —
Python truthiness of `scan_error` defeats the claimed downgrade-to-`failed`
for this exception. -/
theorem engine_fatal_marks_failed_cex :
    (findScan (scanWorkerFinal "s2" (.engineFatal "") 11 12 dbEx2) "s2").map
        (fun r => (r.status, r.error))
      = some (ScanStatus.completed, some "") ∧
    cookiesOf (scanWorkerFinal "s2" (.engineFatal "") 11 12 dbEx2) "s2" = [] := by
  refine ⟨by decide, by decide⟩

/-- C5 (amended): every engine-fatal exception is caught by the worker and
downgraded to a stored error string with an empty cookie batch; the scan is
marked `failed` when the exception text is non-empty, and (contrary to the
original claim) `completed` when the text is empty. -/
theorem engine_fatal_downgraded (sid msg : String) (t0 t1 : Int)
    (db : DB) (r0 : ScanRow) (h0 : findScan db sid = some r0)
    (hc : cookiesOf db sid = []) :
    ∃ r, findScan (scanWorkerFinal sid (.engineFatal msg) t0 t1 db) sid = some r ∧
      r.error = some msg ∧
      cookiesOf (scanWorkerFinal sid (.engineFatal msg) t0 t1 db) sid = [] ∧
      (msg ≠ "" → r.status = .failed) ∧
      (msg = "" → r.status = .completed) := by
  refine ⟨_, by rw [scanWorkerFinal, findScan_terminalWrite, findScan_setRunning, h0]; rfl,
    rfl, ?_, ?_, ?_⟩
  · rw [scanWorkerFinal, cookiesOf_terminalWrite, cookiesOf_setRunning, hc,
      capturedCookies_filter, List.nil_append]
    rfl
  · intro hne
    show finalStatus (captureError (.engineFatal msg)) = .failed
    have hm : msg.isEmpty = false := by
      rcases h : msg.isEmpty with _ | _
      · rfl
      · exact absurd ((String.isEmpty_iff msg).mp h) hne
    simp [captureError, finalStatus, pyTruthy, hm]
  · intro he
    show finalStatus (captureError (.engineFatal msg)) = .completed
    subst he
    decide

/-- C5 witness: a concrete browser-launch failure with non-empty text ends
`failed` with its text stored and an empty batch. -/
theorem engine_fatal_downgraded_witness :
    ∃ r, findScan (scanWorkerFinal "s1" (.engineFatal "launch failed") 11 12 dbEx) "s1"
        = some r ∧
      r.error = some "launch failed" ∧
      cookiesOf (scanWorkerFinal "s1" (.engineFatal "launch failed") 11 12 dbEx) "s1" = [] ∧
      ("launch failed" ≠ "" → r.status = .failed) ∧
      ("launch failed" = "" → r.status = .completed) :=
  engine_fatal_downgraded "s1" "launch failed" 11 12 dbEx scanRowEx (by decide) (by decide)

/-! ## Listing claims -/

/-- C8: for every database state and tenant, `GET /scans` returns at most 50
rows, ordered by `created_at` descending (each row's creation time is at
least the next row's), and containing only rows of the requesting tenant —
a scan of another tenant is never returned. -/
theorem list_scans_spec (db : DB) (tid : String) :
    (list_scans db tid).length ≤ 50 ∧
    (list_scans db tid).Pairwise newerFirst ∧
    ∀ r ∈ list_scans db tid, r.tenant_id = tid := by
  refine ⟨List.length_take_le _ _, ?_, ?_⟩
  · exact List.Pairwise.sublist (List.take_sublist _ _)
      (List.sorted_insertionSort newerFirst _)
  · intro r hr
    have h1 : r ∈ (db.scans.filter fun s => s.tenant_id == tid).insertionSort newerFirst :=
      List.mem_of_mem_take hr
    have h2 : r ∈ db.scans.filter fun s => s.tenant_id == tid :=
      (List.mem_insertionSort newerFirst).mp h1
    exact eq_of_beq (List.mem_filter.mp h2).2

/-- C8 witness: with one scan of tenant `tA` and one of tenant `tB` in the
table, the listing for `tA` is short, ordered, and tenant-pure; in
particular the `tA` scan it contains is owned by `tA`. -/
theorem list_scans_spec_witness :
    (list_scans dbAB "tA").length ≤ 50 ∧
      (list_scans dbAB "tA").Pairwise newerFirst ∧
      scanRowEx.tenant_id = "tA" :=
  ⟨(list_scans_spec dbAB "tA").1, (list_scans_spec dbAB "tA").2.1,
   (list_scans_spec dbAB "tA").2.2 scanRowEx (by decide)⟩

/-- C10: the listing query has its limit hard-coded to 50 and its offset to
0 (the model, like the endpoint, takes no pagination input), so a scan with
at least 50 strictly newer scans of the same tenant is never returned by
the listing. -/
theorem list_scans_hard_limit (db : DB) (tid : String) (r : ScanRow)
    (h : 50 ≤ ((db.scans.filter fun s => s.tenant_id == tid).filter
      fun s => decide (r.created_at < s.created_at)).length) :
    r ∉ list_scans db tid := by
  intro hmem
  unfold list_scans at hmem
  set F := db.scans.filter fun s => s.tenant_id == tid with hF
  set L := F.insertionSort newerFirst with hLdef
  obtain ⟨i, hi, hget⟩ := List.mem_iff_getElem.mp hmem
  have hlen : (L.take 50).length = min 50 L.length := List.length_take _ _
  have hi50 : i < 50 := lt_of_lt_of_le hi (by rw [hlen]; exact min_le_left _ _)
  have hiL : i < L.length := lt_of_lt_of_le hi (by rw [hlen]; exact min_le_right _ _)
  rw [List.getElem_take] at hget
  have hsorted : L.Pairwise newerFirst := List.sorted_insertionSort newerFirst F
  have hafter : ∀ j : Fin L.length, i ≤ j.1 →
      ¬ (r.created_at < (L.get j).created_at) := by
    intro j hij
    obtain ⟨jv, hjv⟩ := j
    simp only [List.get_eq_getElem]
    rcases Nat.eq_or_lt_of_le hij with heq | hlt
    · subst heq
      rw [hget]
      exact lt_irrefl _
    · have hrel := (List.pairwise_iff_getElem.mp hsorted) i jv hiL hjv hlt
      rw [hget] at hrel
      exact not_lt.mpr hrel
  have hdrop : (L.drop i).filter (fun s => decide (r.created_at < s.created_at)) = [] := by
    rw [List.filter_eq_nil_iff]
    intro s hs
    obtain ⟨j, hj, hgj⟩ := List.mem_iff_getElem.mp hs
    rw [List.getElem_drop] at hgj
    have hbound : i + j < L.length := by
      have hdl := List.length_drop i L
      omega
    have hnlt := hafter ⟨i + j, hbound⟩ (Nat.le_add_right i j)
    simp only [List.get_eq_getElem] at hnlt
    rw [hgj] at hnlt
    simpa using hnlt
  have hperm : List.Perm L F := List.perm_insertionSort newerFirst F
  have hcount : (F.filter fun s => decide (r.created_at < s.created_at)).length
      = (L.filter fun s => decide (r.created_at < s.created_at)).length :=
    (hperm.filter _).length_eq.symm
  have hsmall : (L.filter fun s => decide (r.created_at < s.created_at)).length ≤ i := by
    conv_lhs => rw [← List.take_append_drop i L]
    rw [List.filter_append, hdrop, List.append_nil]
    exact le_trans (List.length_filter_le _ _) (List.length_take_le _ _)
  rw [hcount] at h
  omega

/-- C10 witness: with 51 scans of tenant `tA` created at times 0..50, the
oldest scan (creation time 0, with 50 strictly newer tenant scans) is not
in the listing. -/
theorem list_scans_hard_limit_witness :
    50 ≤ ((db51.scans.filter fun s => s.tenant_id == "tA").filter
        fun s => decide ((mkScanRow 0).created_at < s.created_at)).length ∧
      mkScanRow 0 ∉ list_scans db51 "tA" :=
  ⟨by decide, list_scans_hard_limit db51 "tA" (mkScanRow 0) (by decide)⟩

end CookieScanner
